import Mathlib

/-!
Verification of the Theme Coordinator of the SxChouhan/Portfolio repository.

The coordinator lives in src/hooks/useTheme.ts (the hook useTheme) with its
configuration in constants (THEME_CONFIG).  The generic local-storage hook
useLocalStorage (a separate file) is embedded as well, because one claim
compares the two: useTheme itself registers listeners only for the media-query
change event and for keydown, never for the window storage event.

The embedding is a shallow one: browser state (document root class, meta
theme-color element, localStorage entry under the key "theme", the announcer
element, the matchMedia signal) is carried in an explicit state record, and
every handler is a pure function from state to state paired with a trace of
the side effects it performs, in the order the source performs them.
JavaScript exceptions of the storage API are modelled by the two flags
storageGetFails / storageSetFails: when set, the corresponding call throws and
the embedded code takes its catch branch, exactly as the source wraps the
calls in try/catch.  All functions are total, mirroring the fact that the
source catches every storage error and validates every theme input.
-/

namespace ThemeCoordinator

/-- Configuration record mirroring THEME_CONFIG in the constants module. -/
structure ThemeConfig where
  defaultTheme : String
  storageKey : String
  transitionDuration : Nat
deriving Repr, DecidableEq

/-- THEME_CONFIG from the constants module: default theme "light", storage key
"theme", transition duration 200 ms. -/
def THEME_CONFIG : ThemeConfig :=
  { defaultTheme := "light", storageKey := "theme", transitionDuration := 200 }

/-- State of the coordinator together with the browser state it touches.
Fields theme, mounted, systemPrefersDark are the React state of useTheme;
hasWindow / hasDocument model the typeof window / typeof document guards;
sysDark is the current value of matchMedia prefers-color-scheme dark;
darkClass, transitionProp, hasMeta, metaColor, announcer model the DOM;
storage is the localStorage entry under THEME_CONFIG.storageKey and the two
failure flags make the storage calls throw; listenersActive records whether
the listeners registered by the mount effects are still attached. -/
structure Coord where
  theme : String
  mounted : Bool
  systemPrefersDark : Bool
  hasWindow : Bool
  hasDocument : Bool
  sysDark : Bool
  darkClass : Bool
  transitionProp : Bool
  hasMeta : Bool
  metaColor : String
  storage : Option String
  storageGetFails : Bool
  storageSetFails : Bool
  announcer : Option String
  listenersActive : Bool
deriving Repr, DecidableEq

/-- Observable side effects of the coordinator, in source order. -/
inductive Effect
  | memoryUpdate (t : String)
  | setTransitionProp
  | classUpdate (dark : Bool)
  | scheduleTransitionEnd (ms : Nat)
  | metaColorUpdate (c : String)
  | storageWrite (t : String)
  | warnWriteFailed
  | announce (msg : String)
  | scheduleAnnouncerRemoval (ms : Nat)
  | warnInvalidTheme
  | warnReadFailed
  | setMounted
deriving Repr, DecidableEq

/-- Translation of detectSystemTheme: with no window it returns the default
theme; otherwise it stores the matchMedia result in systemPrefersDark and
returns "dark" or "light" accordingly. -/
def detectSystemTheme (s : Coord) : Coord × String :=
  if s.hasWindow = false then (s, THEME_CONFIG.defaultTheme)
  else ({ s with systemPrefersDark := s.sysDark },
        if s.sysDark then "dark" else "light")

/-- Translation of applyTheme: guard on document, set the transition property,
add or remove the dark class, schedule the transition-property removal, update
the meta theme-color element when present, then attempt the localStorage write
inside try/catch (a failing write only logs a warning). -/
def applyTheme (newTheme : String) (s : Coord) : Coord × List Effect :=
  if s.hasDocument = false then (s, [])
  else
    ({ s with
        transitionProp := true
        darkClass := decide (newTheme = "dark")
        metaColor := if s.hasMeta then
            (if newTheme = "dark" then "#18181b" else "#ffffff")
          else s.metaColor
        storage := if s.storageSetFails then s.storage else some newTheme },
     Effect.setTransitionProp :: Effect.classUpdate (decide (newTheme = "dark")) ::
       Effect.scheduleTransitionEnd THEME_CONFIG.transitionDuration ::
       ((if s.hasMeta then
           [Effect.metaColorUpdate (if newTheme = "dark" then "#18181b" else "#ffffff")]
         else []) ++
        (if s.storageSetFails then [Effect.warnWriteFailed]
         else [Effect.storageWrite newTheme])))

/-- Translation of announceThemeChange: replace any previous announcer element
with a new polite live region holding the message, and schedule its removal
after 1000 ms. -/
def announceThemeChange (newTheme : String) (s : Coord) : Coord × List Effect :=
  let msg := "Theme changed to " ++ newTheme ++ " mode"
  ({ s with announcer := some msg },
   [Effect.announce msg, Effect.scheduleAnnouncerRemoval 1000])

/-- Validation step of setTheme: anything other than exactly "light" or "dark"
(a null argument included) logs a warning and is replaced by the configured
default theme. -/
def validateRequested (requested : Option String) : String × List Effect :=
  match requested with
  | some t =>
      if t = "light" ∨ t = "dark" then (t, [])
      else (THEME_CONFIG.defaultTheme, [Effect.warnInvalidTheme])
  | none => (THEME_CONFIG.defaultTheme, [Effect.warnInvalidTheme])

/-- Translation of setTheme: validate, update the in-memory theme state, run
applyTheme, then announceThemeChange.  The argument is an Option so that a
null argument of the untyped JavaScript caller is representable. -/
def setTheme (requested : Option String) (s : Coord) : Coord × List Effect :=
  let v := validateRequested requested
  let s1 := { s with theme := v.1 }
  let a := applyTheme v.1 s1
  let n := announceThemeChange v.1 a.1
  (n.1, v.2 ++ Effect.memoryUpdate v.1 :: (a.2 ++ n.2))

/-- Translation of toggleTheme: setTheme with the opposite of the current
in-memory theme. -/
def toggleTheme (s : Coord) : Coord × List Effect :=
  setTheme (some (if s.theme = "dark" then "light" else "dark")) s

/-- Current effective theme as exposed to consumers of the hook. -/
def getEffectiveTheme (s : Coord) : String := s.theme

/-- Translation of the mount initialization effect: read the stored value
inside try/catch; a validly stored value wins, otherwise (absent, invalid or
throwing read) fall back to detectSystemTheme; then set the theme state, run
applyTheme (which also writes storage) and mark the hook mounted. -/
def initTheme (s : Coord) : Coord × List Effect :=
  let r : Coord × String × List Effect :=
    if s.storageGetFails then
      let d := detectSystemTheme s
      (d.1, d.2, [Effect.warnReadFailed])
    else
      match s.storage with
      | some v =>
          if v = "light" ∨ v = "dark" then (s, v, [])
          else
            let d := detectSystemTheme s
            (d.1, d.2, [])
      | none =>
          let d := detectSystemTheme s
          (d.1, d.2, [])
  let s1 := { r.1 with theme := r.2.1 }
  let a := applyTheme r.2.1 s1
  ({ a.1 with mounted := true },
   r.2.2 ++ Effect.memoryUpdate r.2.1 :: (a.2 ++ [Effect.setMounted]))

/-- Translation of the media-query change handler: record the new matched
value (the sysDark field is updated as well, since the event reports the new
environment signal), then read the stored value inside try/catch; only when
the stored value is falsy (absent or the empty string) is the theme switched
to the one derived from the new system signal. -/
def handleSystemChange (mq : Bool) (s : Coord) : Coord × List Effect :=
  let s0 := { s with systemPrefersDark := mq, sysDark := mq }
  if s0.storageGetFails then (s0, [Effect.warnReadFailed])
  else
    match s0.storage with
    | none => setTheme (some (if mq then "dark" else "light")) s0
    | some v =>
        if v = "" then setTheme (some (if mq then "dark" else "light")) s0
        else (s0, [])

/-- Translation of the keydown handler: Ctrl or Meta, plus Shift, plus the key
"T" invokes toggleTheme; every other key combination is ignored. -/
def handleKeyDown (ctrlKey metaKey shiftKey : Bool) (key : String) (s : Coord) :
    Coord × List Effect :=
  if (ctrlKey = true ∨ metaKey = true) ∧ shiftKey = true ∧ key = "T" then
    toggleTheme s
  else (s, [])

/-- Events the browser can deliver to the page while the hook is mounted or
after it is gone.  The storage event is included because the window can
receive it; useTheme itself registers no handler for it. -/
inductive CoordEvent
  | systemChange (mq : Bool)
  | storageEvent (key : String) (newValue : Option String) (sameArea : Bool)
  | keydown (ctrlKey metaKey shiftKey : Bool) (key : String)
deriving Repr, DecidableEq

/-- Event dispatch against the listeners registered by useTheme: the
media-query change handler and the keydown handler run only while the mount
listeners are attached; the storage event runs no handler at all because
useTheme never registers one. -/
def dispatch (e : CoordEvent) (s : Coord) : Coord × List Effect :=
  match e with
  | CoordEvent.systemChange m =>
      if s.listenersActive then handleSystemChange m s else (s, [])
  | CoordEvent.storageEvent _ _ _ => (s, [])
  | CoordEvent.keydown c mk sh k =>
      if s.listenersActive then handleKeyDown c mk sh k s else (s, [])

/-- Translation of the unmount cleanups, which run together at teardown:
remove the media-query change listener, remove the keydown listener, and
remove the announcer element when still attached. -/
def teardown (s : Coord) : Coord :=
  { s with listenersActive := false, announcer := none }

/-- Projection of an effect onto the five effect categories named by the
specification: in-memory update, visual dark-class update, meta theme-color
update, storage persistence, screen-reader announcement. -/
def specEffectKind : Effect → Option String
  | Effect.memoryUpdate _ => some "memory"
  | Effect.classUpdate _ => some "class"
  | Effect.metaColorUpdate _ => some "metaColor"
  | Effect.storageWrite _ => some "persist"
  | Effect.announce _ => some "announce"
  | _ => none

/-- Trace of a handler filtered to the five specification effect categories,
keeping their relative order. -/
def specTrace (es : List Effect) : List String := es.filterMap specEffectKind

/-- Browser-like base state used for concrete scenarios: window and document
exist, the meta element is present, storage works and is empty, the system
signal reports light, the mount listeners are attached. -/
def baseCoord : Coord :=
  { theme := THEME_CONFIG.defaultTheme
    mounted := false
    systemPrefersDark := false
    hasWindow := true
    hasDocument := true
    sysDark := false
    darkClass := false
    transitionProp := false
    hasMeta := true
    metaColor := "#ffffff"
    storage := none
    storageGetFails := false
    storageSetFails := false
    announcer := none
    listenersActive := true }

/-- State of one useLocalStorage hook instance for a string value: its
in-memory value, its error flag, and the localStorage entry under its key. -/
structure LSState where
  value : String
  error : Bool
  storage : Option String
deriving Repr, DecidableEq

/-- Translation of the storage-event handler of useLocalStorage: when the
event key equals the hook key and the event originates from localStorage,
clear the error and adopt the new value — the default value when the entry
was removed, otherwise the value read through the serializer.  The handler
never writes to storage.  The serializer read function is a parameter of the
hook; the default serializer returns a raw non-JSON string such as "dark"
unchanged, because JSON.parse throws on it and the catch branch returns the
input. -/
def lsHandleStorageChange (key defaultValue : String) (read : String → String)
    (evKey : String) (evNewValue : Option String) (evSameArea : Bool)
    (ls : LSState) : LSState :=
  if evKey = key ∧ evSameArea = true then
    match evNewValue with
    | none => { ls with value := defaultValue, error := false }
    | some v => { ls with value := read v, error := false }
  else ls

/-! Helper lemmas shared by the claim theorems. -/

/-- Lemma: applyTheme never changes the in-memory theme field. -/
theorem applyTheme_theme (t : String) (s : Coord) :
    ((applyTheme t s).1).theme = s.theme := by
  unfold applyTheme
  split_ifs <;> rfl

/-- Lemma: announceThemeChange never changes the in-memory theme field. -/
theorem announceThemeChange_theme (t : String) (s : Coord) :
    ((announceThemeChange t s).1).theme = s.theme := rfl

/-- Lemma: announceThemeChange never changes the storage entry. -/
theorem announceThemeChange_storage (t : String) (s : Coord) :
    ((announceThemeChange t s).1).storage = s.storage := rfl

/-- Lemma: the theme after setTheme is exactly the validated request. -/
theorem setTheme_theme (requested : Option String) (s : Coord) :
    ((setTheme requested s).1).theme = (validateRequested requested).1 := by
  unfold setTheme
  dsimp only
  rw [announceThemeChange_theme, applyTheme_theme]

/-- Lemma: validation is the identity on the two valid theme values. -/
theorem validateRequested_valid (t : String) (h : t = "light" ∨ t = "dark") :
    validateRequested (some t) = (t, []) := by
  unfold validateRequested
  dsimp only
  rw [if_pos h]

/-- Lemma: validation replaces an invalid value with the default theme. -/
theorem validateRequested_invalid (t : String) (h1 : t ≠ "light") (h2 : t ≠ "dark") :
    validateRequested (some t) = ("light", [Effect.warnInvalidTheme]) := by
  unfold validateRequested
  dsimp only
  rw [if_neg]
  · rfl
  · intro h
    rcases h with h | h
    · exact h1 h
    · exact h2 h

/-- Lemma: the validated request is always one of the two valid themes. -/
theorem validateRequested_mem (requested : Option String) :
    (validateRequested requested).1 = "light" ∨ (validateRequested requested).1 = "dark" := by
  unfold validateRequested
  cases requested with
  | none => exact Or.inl rfl
  | some t =>
      dsimp only
      split_ifs with h
      · exact h
      · exact Or.inl rfl

/-- Lemma: with a working document and working storage, applyTheme stores the
applied theme under the key. -/
theorem applyTheme_storage_ok (t : String) (s : Coord)
    (hd : s.hasDocument = true) (hf : s.storageSetFails = false) :
    ((applyTheme t s).1).storage = some t := by
  unfold applyTheme
  rw [hd]
  simp [hf]

/-- Lemma: when the storage write throws, applyTheme leaves the storage entry
unchanged. -/
theorem applyTheme_storage_fail (t : String) (s : Coord)
    (hf : s.storageSetFails = true) :
    ((applyTheme t s).1).storage = s.storage := by
  unfold applyTheme
  split_ifs <;> simp [hf]

/-- Lemma: applyTheme does not change the storage failure flags, the document
flag or the meta flag. -/
theorem applyTheme_flags (t : String) (s : Coord) :
    ((applyTheme t s).1).hasDocument = s.hasDocument
    ∧ ((applyTheme t s).1).storageSetFails = s.storageSetFails
    ∧ ((applyTheme t s).1).hasMeta = s.hasMeta := by
  unfold applyTheme
  split_ifs <;> exact ⟨rfl, rfl, rfl⟩

/-- Lemma: detectSystemTheme changes no field other than systemPrefersDark. -/
theorem detectSystemTheme_fields (s : Coord) :
    ((detectSystemTheme s).1).theme = s.theme
    ∧ ((detectSystemTheme s).1).storage = s.storage
    ∧ ((detectSystemTheme s).1).hasDocument = s.hasDocument
    ∧ ((detectSystemTheme s).1).storageSetFails = s.storageSetFails := by
  unfold detectSystemTheme
  split_ifs <;> exact ⟨rfl, rfl, rfl, rfl⟩

/-- Lemma: the theme returned by detectSystemTheme is "dark" when the window
exists and the signal is dark, "light" otherwise. -/
theorem detectSystemTheme_val (s : Coord) :
    (detectSystemTheme s).2 =
      if s.hasWindow = true then (if s.sysDark then "dark" else "light")
      else "light" := by
  unfold detectSystemTheme
  cases hw : s.hasWindow <;> simp [hw, THEME_CONFIG]

/-- Lemma: the detected theme is always one of the two valid themes. -/
theorem detectSystemTheme_mem (s : Coord) :
    (detectSystemTheme s).2 = "light" ∨ (detectSystemTheme s).2 = "dark" := by
  rw [detectSystemTheme_val]
  split_ifs <;> simp

/-- Lemma: the theme state after initialization, when the storage read does
not throw: a validly stored value, else the detected system theme. -/
theorem initTheme_theme (s : Coord) (hget : s.storageGetFails = false) :
    getEffectiveTheme (initTheme s).1 =
      match s.storage with
      | some v => if v = "light" ∨ v = "dark" then v else (detectSystemTheme s).2
      | none => (detectSystemTheme s).2 := by
  unfold initTheme getEffectiveTheme
  rw [if_neg (by simp [hget])]
  cases hst : s.storage with
  | none =>
      dsimp only
      rw [applyTheme_theme]
  | some v =>
      dsimp only
      split_ifs with h <;> · dsimp only; rw [applyTheme_theme]

/-- Lemma: the theme after toggleTheme is the opposite of the current theme. -/
theorem toggleTheme_theme (s : Coord) :
    ((toggleTheme s).1).theme =
      if s.theme = "dark" then "light" else "dark" := by
  unfold toggleTheme
  rw [setTheme_theme]
  split_ifs with h
  · rw [validateRequested_valid _ (Or.inl rfl)]
  · rw [validateRequested_valid _ (Or.inr rfl)]

/-- Lemma: the storage entry after initialization, when the read works, the
document exists and the write works: the initial theme is persisted. -/
theorem initTheme_storage (s : Coord) (hget : s.storageGetFails = false)
    (hd : s.hasDocument = true) (hf : s.storageSetFails = false) :
    ((initTheme s).1).storage = some (((initTheme s).1).theme) := by
  unfold initTheme
  rw [if_neg (by simp [hget])]
  cases hst : s.storage with
  | none =>
      dsimp only
      rw [applyTheme_theme]
      exact applyTheme_storage_ok _ _
        ((detectSystemTheme_fields s).2.2.1.trans hd)
        ((detectSystemTheme_fields s).2.2.2.trans hf)
  | some v =>
      dsimp only
      split_ifs with h
      · dsimp only
        rw [applyTheme_theme]
        exact applyTheme_storage_ok _ _ hd hf
      · dsimp only
        rw [applyTheme_theme]
        exact applyTheme_storage_ok _ _
          ((detectSystemTheme_fields s).2.2.1.trans hd)
          ((detectSystemTheme_fields s).2.2.2.trans hf)

/-- Initialized coordinator state used in concrete scenarios: the result of
running the mount effect on the browser-like base state. -/
def sMounted : Coord := (initTheme baseCoord).1

/-- Concrete state for the system-change scenarios: an initialized browser
whose storage entry holds the invalid string "blue". -/
def sBlue : Coord := { baseCoord with storage := some "blue" }

/-! Claim theorems. -/

/-- Claim C1, counterexample: the coordinator registers no storage-event
listener, so after a cross-tab storage event with key "theme" and new value
"dark" delivered to a fully initialized coordinator, getEffectiveTheme still
returns the old theme "light", not "dark" as the claim states. -/
theorem c1_counterexample :
    getEffectiveTheme sMounted = "light"
    ∧ dispatch (CoordEvent.storageEvent "theme" (some "dark") true) sMounted
        = (sMounted, [])
    ∧ getEffectiveTheme
        (dispatch (CoordEvent.storageEvent "theme" (some "dark") true) sMounted).1
        ≠ "dark" := by
  refine ⟨rfl, rfl, by decide⟩

/-- Claim C1, amended: useTheme registers no listener for the storage event,
so a cross-tab storage event — whatever its key and value — leaves the
coordinator state unchanged, in particular getEffectiveTheme, and issues no
storage write; only the generic useLocalStorage hook, which useTheme does not
use, adopts such an event into its in-memory value, and it does so without
writing back to storage. -/
theorem c1_amended_no_listener :
    (∀ (s : Coord) (k : String) (v : Option String) (a : Bool),
        dispatch (CoordEvent.storageEvent k v a) s = (s, []))
    ∧ (∀ (read : String → String) (d : String) (ls : LSState),
        (lsHandleStorageChange "theme" d read "theme" (some "dark") true ls).value
            = read "dark"
        ∧ (lsHandleStorageChange "theme" d read "theme" (some "dark") true ls).storage
            = ls.storage) := by
  constructor
  · intro s k v a
    rfl
  · intro read d ls
    constructor <;> simp [lsHandleStorageChange]

/-- Claim C2: at initialization the effective theme is a validly stored
preference when present, else the system preference translated to a theme,
else the configured default; in particular stored "dark" wins over a light
system signal, a dark system signal wins when nothing is stored, and with
neither signal the default "light" results. -/
theorem c2_init_precedence (s : Coord) (hget : s.storageGetFails = false) :
    (∀ v, s.storage = some v → (v = "light" ∨ v = "dark") →
       getEffectiveTheme (initTheme s).1 = v)
    ∧ (s.storage = none → s.hasWindow = true → s.sysDark = true →
       getEffectiveTheme (initTheme s).1 = "dark")
    ∧ (s.storage = none → s.hasWindow = true → s.sysDark = false →
       getEffectiveTheme (initTheme s).1 = THEME_CONFIG.defaultTheme)
    ∧ (s.storage = none → s.hasWindow = false →
       getEffectiveTheme (initTheme s).1 = THEME_CONFIG.defaultTheme) := by
  refine ⟨?_, ?_, ?_, ?_⟩
  · intro v hv hvalid
    rw [initTheme_theme s hget, hv]
    dsimp only
    rw [if_pos hvalid]
  · intro hst hw hsd
    rw [initTheme_theme s hget, hst]
    dsimp only
    rw [detectSystemTheme_val]
    simp [hw, hsd]
  · intro hst hw hsd
    rw [initTheme_theme s hget, hst]
    dsimp only
    rw [detectSystemTheme_val]
    simp [hw, hsd, THEME_CONFIG]
  · intro hst hw
    rw [initTheme_theme s hget, hst]
    dsimp only
    rw [detectSystemTheme_val]
    simp [hw, THEME_CONFIG]

/-- Witness for C2 at a concrete state: stored preference "dark" with a light
system signal yields effective theme "dark" after initialization. -/
theorem c2_init_precedence_witness :
    ({ baseCoord with storage := some "dark" } : Coord).storageGetFails = false
    ∧ getEffectiveTheme
        (initTheme { baseCoord with storage := some "dark" }).1 = "dark" :=
  ⟨rfl, (c2_init_precedence { baseCoord with storage := some "dark" } rfl).1
    "dark" rfl (Or.inr rfl)⟩

/-- Claim C3: for an invalid argument (a string other than "light" or "dark",
or null) setTheme yields the configured default, never the invalid value, and
an invalid stored value at initialization is treated as absent, so the
effective theme after setTheme or initialization is always "light" or
"dark".  The embedded setTheme and initTheme are total functions, mirroring
the source where validation and try/catch prevent any throw. -/
theorem c3_invalid_input (s : Coord) (v : String)
    (hv1 : v ≠ "light") (hv2 : v ≠ "dark") (hget : s.storageGetFails = false) :
    (getEffectiveTheme (setTheme (some v) s).1 = THEME_CONFIG.defaultTheme
     ∧ getEffectiveTheme (setTheme (some v) s).1 ≠ v)
    ∧ getEffectiveTheme (setTheme none s).1 = THEME_CONFIG.defaultTheme
    ∧ (s.storage = some v →
        getEffectiveTheme (initTheme s).1 = (detectSystemTheme s).2)
    ∧ (∀ r, getEffectiveTheme (setTheme r s).1 = "light"
          ∨ getEffectiveTheme (setTheme r s).1 = "dark")
    ∧ (getEffectiveTheme (initTheme s).1 = "light"
       ∨ getEffectiveTheme (initTheme s).1 = "dark") := by
  refine ⟨⟨?_, ?_⟩, ?_, ?_, ?_, ?_⟩
  · unfold getEffectiveTheme
    rw [setTheme_theme, validateRequested_invalid v hv1 hv2]
    rfl
  · unfold getEffectiveTheme
    rw [setTheme_theme, validateRequested_invalid v hv1 hv2]
    exact fun h => hv1 h.symm
  · unfold getEffectiveTheme
    rw [setTheme_theme]
    rfl
  · intro hst
    rw [initTheme_theme s hget, hst]
    dsimp only
    rw [if_neg]
    intro h
    rcases h with h | h
    · exact hv1 h
    · exact hv2 h
  · intro r
    unfold getEffectiveTheme
    rw [setTheme_theme]
    exact validateRequested_mem r
  · rw [initTheme_theme s hget]
    cases hst : s.storage with
    | none => exact detectSystemTheme_mem s
    | some w =>
        dsimp only
        split_ifs with h
        · exact h
        · exact detectSystemTheme_mem s

/-- Witness for C3 at the invalid input "blue" on the state whose storage
also holds "blue". -/
theorem c3_invalid_input_witness :
    (("blue" : String) ≠ "light" ∧ ("blue" : String) ≠ "dark"
      ∧ sBlue.storageGetFails = false)
    ∧ getEffectiveTheme (setTheme (some "blue") sBlue).1 = THEME_CONFIG.defaultTheme
    ∧ getEffectiveTheme (initTheme sBlue).1 = (detectSystemTheme sBlue).2 :=
  ⟨⟨by decide, by decide, rfl⟩,
   (c3_invalid_input sBlue "blue" (by decide) (by decide) rfl).1.1,
   (c3_invalid_input sBlue "blue" (by decide) (by decide) rfl).2.2.1 rfl⟩

/-- Claim C4: for a valid theme t, setTheme t followed by getEffectiveTheme
returns t. -/
theorem c4_set_then_get (s : Coord) (t : String) (h : t = "light" ∨ t = "dark") :
    getEffectiveTheme (setTheme (some t) s).1 = t := by
  unfold getEffectiveTheme
  rw [setTheme_theme, validateRequested_valid t h]

/-- Witness for C4 at t = "dark" on the base state. -/
theorem c4_set_then_get_witness :
    (("dark" : String) = "light" ∨ ("dark" : String) = "dark")
    ∧ getEffectiveTheme (setTheme (some "dark") baseCoord).1 = "dark" :=
  ⟨Or.inr rfl, c4_set_then_get baseCoord "dark" (Or.inr rfl)⟩

/-- Claim C5: toggleTheme equals setTheme of the opposite of the current
effective theme (definitionally, as in the source), and toggling twice from
any valid effective theme restores the original effective theme. -/
theorem c5_toggle_involution (s : Coord)
    (h : getEffectiveTheme s = "light" ∨ getEffectiveTheme s = "dark") :
    toggleTheme s
      = setTheme (some (if getEffectiveTheme s = "dark" then "light" else "dark")) s
    ∧ getEffectiveTheme (toggleTheme (toggleTheme s).1).1 = getEffectiveTheme s := by
  constructor
  · rfl
  · unfold getEffectiveTheme at h ⊢
    rw [toggleTheme_theme, toggleTheme_theme]
    rcases h with h | h <;> rw [h] <;> decide

/-- Witness for C5 on the base state whose effective theme is "light". -/
theorem c5_toggle_involution_witness :
    (getEffectiveTheme baseCoord = "light" ∨ getEffectiveTheme baseCoord = "dark")
    ∧ getEffectiveTheme (toggleTheme (toggleTheme baseCoord).1).1
        = getEffectiveTheme baseCoord :=
  ⟨Or.inl rfl, (c5_toggle_involution baseCoord (Or.inl rfl)).2⟩

/-- Claim C6: when the storage write throws during setTheme "dark", the
in-memory theme still becomes "dark", the storage entry is left unchanged, no
storage write is performed, and the coordinator keeps functioning: a
subsequent toggle flips the theme back to "light".  The embedded setTheme is
a total function, mirroring the try/catch that keeps the thrown storage
error away from the caller. -/
theorem c6_storage_write_failure (s : Coord) (hf : s.storageSetFails = true) :
    getEffectiveTheme (setTheme (some "dark") s).1 = "dark"
    ∧ ((setTheme (some "dark") s).1).storage = s.storage
    ∧ Effect.storageWrite "dark" ∉ (setTheme (some "dark") s).2
    ∧ ((toggleTheme (setTheme (some "dark") s).1).1).theme = "light" := by
  refine ⟨?_, ?_, ?_, ?_⟩
  · unfold getEffectiveTheme
    rw [setTheme_theme, validateRequested_valid _ (Or.inr rfl)]
  · exact applyTheme_storage_fail _ _ hf
  · simp [setTheme, applyTheme, announceThemeChange, validateRequested, hf]
    split_ifs <;> simp
  · rw [toggleTheme_theme]
    rw [setTheme_theme, validateRequested_valid _ (Or.inr rfl)]
    decide

/-- Witness for C6 on the base state with a failing storage write. -/
theorem c6_storage_write_failure_witness :
    ({ baseCoord with storageSetFails := true } : Coord).storageSetFails = true
    ∧ getEffectiveTheme
        (setTheme (some "dark") { baseCoord with storageSetFails := true }).1
        = "dark"
    ∧ ((setTheme (some "dark") { baseCoord with storageSetFails := true }).1).storage
        = ({ baseCoord with storageSetFails := true } : Coord).storage :=
  ⟨rfl,
   (c6_storage_write_failure { baseCoord with storageSetFails := true } rfl).1,
   (c6_storage_write_failure { baseCoord with storageSetFails := true } rfl).2.1⟩

/-- Claim C7, counterexample: with the invalid string "blue" stored under the
key — which the specification says must be treated as an absent preference —
a system-signal change to dark does not recompute the effective theme: it
stays "light" instead of becoming "dark", because the handler only checks
that the stored value is falsy, not that it is valid. -/
theorem c7_counterexample :
    sBlue.storage = some "blue"
    ∧ (("blue" : String) ≠ "light" ∧ ("blue" : String) ≠ "dark")
    ∧ getEffectiveTheme sBlue = "light"
    ∧ getEffectiveTheme (handleSystemChange true sBlue).1 = "light"
    ∧ getEffectiveTheme (handleSystemChange true sBlue).1 ≠ "dark" := by
  refine ⟨rfl, ⟨by decide, by decide⟩, rfl, by decide, by decide⟩

/-- Claim C7, amended: on a system-signal change the effective theme is
recomputed from the new signal exactly when the raw stored value under the
key is absent or the empty string (the two falsy possibilities); any
non-empty stored value — a valid persisted preference in particular, but
also an invalid string such as "blue" — leaves the effective theme
unchanged, the handler then only recording the new signal value. -/
theorem c7_amended_system_change (s : Coord) (mq : Bool)
    (hget : s.storageGetFails = false) :
    ((s.storage = none ∨ s.storage = some "") →
       getEffectiveTheme (handleSystemChange mq s).1 = (if mq then "dark" else "light"))
    ∧ (∀ v, s.storage = some v → v ≠ "" →
       getEffectiveTheme (handleSystemChange mq s).1 = getEffectiveTheme s
       ∧ (handleSystemChange mq s).1
           = { s with systemPrefersDark := mq, sysDark := mq }) := by
  constructor
  · intro hst
    unfold handleSystemChange
    rw [if_neg (by simp [hget])]
    rcases hst with h | h
    · simp only [h]
      unfold getEffectiveTheme
      rw [setTheme_theme]
      cases mq <;> simp [validateRequested]
    · simp only [h]
      rw [if_pos trivial]
      unfold getEffectiveTheme
      rw [setTheme_theme]
      cases mq <;> simp [validateRequested]
  · intro v hv hne
    unfold handleSystemChange
    rw [if_neg (by simp [hget])]
    simp only [hv]
    rw [if_neg hne]
    exact ⟨rfl, rfl⟩

/-- Witness for the amended C7: with nothing stored, a change of the system
signal to dark switches the effective theme to dark. -/
theorem c7_amended_system_change_witness :
    baseCoord.storageGetFails = false
    ∧ (baseCoord.storage = none ∨ baseCoord.storage = some "")
    ∧ getEffectiveTheme (handleSystemChange true baseCoord).1
        = (if true then "dark" else "light") :=
  ⟨rfl, Or.inl rfl,
   (c7_amended_system_change baseCoord true rfl).1 (Or.inl rfl)⟩

/-- Claim C8, counterexample: projected onto the five effect categories named
by the claim, the actual order of the side effects of setTheme "dark" is
memory update, dark-class update, theme-color metadata update, storage
persistence, announcement — not the claimed memory, class, persistence,
announcement, metadata. -/
theorem c8_counterexample :
    specTrace (setTheme (some "dark") baseCoord).2
        = ["memory", "class", "metaColor", "persist", "announce"]
    ∧ specTrace (setTheme (some "dark") baseCoord).2
        ≠ ["memory", "class", "persist", "announce", "metaColor"] := by
  exact ⟨by decide, by decide⟩

/-- Claim C8, amended: for a valid theme t, on a state with a document, a
meta theme-color element and working storage, setTheme t performs, in order:
the in-memory update, the transition-property setup, the dark-class update,
the scheduling of the transition cleanup, the theme-color metadata update,
the storage write, the screen-reader announcement, and the scheduling of the
announcer removal after 1000 ms — so among the five categories of the claim
the metadata update comes third, before persistence, and the announcement is
last. -/
theorem c8_amended_effect_order (s : Coord) (t : String)
    (h : t = "light" ∨ t = "dark") (hd : s.hasDocument = true)
    (hm : s.hasMeta = true) (hf : s.storageSetFails = false) :
    (setTheme (some t) s).2 =
      [Effect.memoryUpdate t, Effect.setTransitionProp,
       Effect.classUpdate (decide (t = "dark")),
       Effect.scheduleTransitionEnd THEME_CONFIG.transitionDuration,
       Effect.metaColorUpdate (if t = "dark" then "#18181b" else "#ffffff"),
       Effect.storageWrite t,
       Effect.announce ("Theme changed to " ++ t ++ " mode"),
       Effect.scheduleAnnouncerRemoval 1000]
    ∧ specTrace (setTheme (some t) s).2
        = ["memory", "class", "metaColor", "persist", "announce"] := by
  have htrace : (setTheme (some t) s).2 =
      [Effect.memoryUpdate t, Effect.setTransitionProp,
       Effect.classUpdate (decide (t = "dark")),
       Effect.scheduleTransitionEnd THEME_CONFIG.transitionDuration,
       Effect.metaColorUpdate (if t = "dark" then "#18181b" else "#ffffff"),
       Effect.storageWrite t,
       Effect.announce ("Theme changed to " ++ t ++ " mode"),
       Effect.scheduleAnnouncerRemoval 1000] := by
    unfold setTheme
    rw [validateRequested_valid t h]
    simp [applyTheme, announceThemeChange, hd, hm, hf]
  refine ⟨htrace, ?_⟩
  rw [htrace]
  rfl

/-- Witness for the amended C8 at t = "dark" on the base state. -/
theorem c8_amended_effect_order_witness :
    (("dark" : String) = "light" ∨ ("dark" : String) = "dark")
    ∧ baseCoord.hasDocument = true ∧ baseCoord.hasMeta = true
    ∧ baseCoord.storageSetFails = false
    ∧ specTrace (setTheme (some "dark") baseCoord).2
        = ["memory", "class", "metaColor", "persist", "announce"] :=
  ⟨Or.inr rfl, rfl, rfl, rfl,
   (c8_amended_effect_order baseCoord "dark" (Or.inr rfl) rfl rfl rfl).2⟩

/-- Claim C9: teardown removes the mount-registered listeners and the
announcer, and afterwards no delivered event — system-preference change,
storage event, or keydown — changes the coordinator state or its effective
theme. -/
theorem c9_teardown_inert (e : CoordEvent) (s : Coord) :
    (teardown s).listenersActive = false
    ∧ (teardown s).announcer = none
    ∧ dispatch e (teardown s) = (teardown s, [])
    ∧ getEffectiveTheme (dispatch e (teardown s)).1 = getEffectiveTheme s := by
  refine ⟨rfl, rfl, ?_, ?_⟩
  · cases e <;> simp [dispatch, teardown]
  · cases e <;> simp [dispatch, teardown, getEffectiveTheme]

/-- Claim C10: applyTheme always writes the applied theme to storage when the
document exists and the write does not throw — the initialization path
included — so after initialization with working storage the storage entry
holds the effective theme, and it is populated even when nothing was stored
before the mount. -/
theorem c10_init_always_persists (s : Coord) (t : String)
    (hd : s.hasDocument = true) (hf : s.storageSetFails = false)
    (hget : s.storageGetFails = false) :
    ((applyTheme t s).1).storage = some t
    ∧ ((initTheme s).1).storage = some (getEffectiveTheme (initTheme s).1)
    ∧ (s.storage = none → ((initTheme s).1).storage ≠ none) := by
  refine ⟨applyTheme_storage_ok t s hd hf, initTheme_storage s hget hd hf, ?_⟩
  intro _
  rw [initTheme_storage s hget hd hf]
  simp

/-- Witness for C10 on the base state, whose storage starts empty. -/
theorem c10_init_always_persists_witness :
    baseCoord.hasDocument = true ∧ baseCoord.storageSetFails = false
    ∧ baseCoord.storageGetFails = false ∧ baseCoord.storage = none
    ∧ ((initTheme baseCoord).1).storage ≠ none :=
  ⟨rfl, rfl, rfl, rfl,
   (c10_init_always_persists baseCoord "light" rfl rfl rfl).2.2 rfl⟩

end ThemeCoordinator
